import Mathlib

/-!
Verification of the exam-architect attempt protocol, scoring engine, timer and
exam-taking state machine, as a shallow embedding of the SQL migrations
(`supabase/migrations`, `student_exam_questions` view, `start_exam_attempt`
and `submit_exam_attempt` functions) and of the client components
(`ExamTimer`, `TakeExam`).
-/

namespace ExamArchitect

/-! ## Data model (tables `exams`, `questions`, `exam_attempts`)

Column nullability follows the CREATE TABLE statements and the generated
database types: `exams.is_published` and `exams.created_by` are nullable,
`exams.solo_mode` is NOT NULL; `questions.correct_answer`, `solution`,
`explanation`, `image_url` are nullable; `exam_attempts.answers`, `score`,
`session_id`, `submitted_at` are nullable with no defaults. Timestamps are
modelled as natural numbers (milliseconds), uuids as strings, and the JSONB
answer map as an association list from question id to submitted answer. -/

structure Question where
  id : String
  exam_id : String
  question_text : String
  question_type : String
  options : List String
  correct_answer : Option String
  image_url : Option String
  solution : Option String
  explanation : Option String
  order_index : Int
  created_at : Nat
deriving DecidableEq

structure Exam where
  id : String
  title : String
  is_published : Option Bool
  solo_mode : Bool
  created_by : Option String
  time_limit_minutes : Option Nat
deriving DecidableEq

structure Attempt where
  id : String
  exam_id : String
  session_id : Option String
  student_name : Option String
  student_email : Option String
  answers : Option (List (String × String))
  score : Option Nat
  started_at : Nat
  submitted_at : Option Nat
deriving DecidableEq

structure DB where
  exams : List Exam
  questions : List Question
  attempts : List Attempt
deriving DecidableEq

/-! ## Scoring engine (`public.submit_exam_attempt`, grading loop) -/

/-- SQL text equality `a = b` as it appears in the grading loop
`p_answers->>question_record.id = question_record.correct_answer`:
the comparison is TRUE only when both operands are non-NULL and equal;
any NULL operand yields UNKNOWN, which the IF treats as not taken. -/
def sqlEqText : Option String → Option String → Bool
  | some a, some b => a == b
  | _, _ => false

/-- `p_answers ->> key`: JSONB text extraction, NULL when the key is absent. -/
def jsonbGetText (answers : List (String × String)) (key : String) : Option String :=
  answers.lookup key

/-- One iteration of the grading loop: does the supplied answer for this
question equal its `correct_answer` under SQL text equality. -/
def questionMatched (answers : List (String × String)) (q : Question) : Bool :=
  sqlEqText (jsonbGetText answers q.id) q.correct_answer

/-- `SELECT ... FROM questions q WHERE q.exam_id = v_exam_id`. -/
def examQuestions (db : DB) (examId : String) : List Question :=
  db.questions.filter (fun q => q.exam_id == examId)

/-- `v_correct`: number of loop iterations whose comparison is TRUE. -/
def correctCount (qs : List Question) (answers : List (String × String)) : Nat :=
  (qs.filter (questionMatched answers)).length

/-- `ROUND((v_correct::NUMERIC / v_total) * 100)` guarded by `IF v_total > 0`.
NUMERIC ROUND is round-half-away-from-zero; both operands are nonnegative,
so it is floor(x + 1/2), realized on integers as (200*c + t) / (2*t). -/
def computeScore (c t : Nat) : Nat :=
  if 0 < t then (200 * c + t) / (2 * t) else 0

structure SubmitResult where
  score : Nat
  correct_count : Nat
  total_count : Nat
deriving DecidableEq

inductive SubmitError where
  | invalidAttempt
deriving DecidableEq

/-- The check statement of `submit_exam_attempt`:
`SELECT exam_id INTO v_exam_id FROM exam_attempts WHERE id = p_attempt_id
AND session_id = p_session_id AND submitted_at IS NULL`.
Returns the selected row's exam_id, or NULL when no row qualifies. -/
def submitCheck (db : DB) (attemptId sessionId : String) : Option String :=
  (db.attempts.find? (fun a =>
      a.id == attemptId && a.session_id == some sessionId && a.submitted_at == none)).map
    (fun a => a.exam_id)

/-- The write statement of `submit_exam_attempt`:
`UPDATE exam_attempts SET answers = p_answers, score = v_score,
submitted_at = NOW() WHERE id = p_attempt_id AND session_id = p_session_id`.
Note the WHERE clause matches id and session_id only; it does not recheck
`submitted_at IS NULL`. -/
def submitWrite (db : DB) (attemptId sessionId : String)
    (answers : List (String × String)) (v : Nat) (now : Nat) : DB :=
  { db with attempts := db.attempts.map (fun a =>
      if a.id == attemptId && a.session_id == some sessionId then
        { a with answers := some answers, score := some v, submitted_at := some now }
      else a) }

/-- `public.submit_exam_attempt(p_attempt_id, p_session_id, p_answers)`,
executed sequentially (no interleaving with other calls): check, grade,
count, score, write, return the triple. -/
def submit_exam_attempt (db : DB) (attemptId sessionId : String)
    (answers : List (String × String)) (now : Nat) :
    Except SubmitError (DB × SubmitResult) :=
  match submitCheck db attemptId sessionId with
  | none => .error .invalidAttempt
  | some examId =>
      let qs := examQuestions db examId
      let c := correctCount qs answers
      let t := qs.length
      let v := computeScore c t
      .ok (submitWrite db attemptId sessionId answers v now, ⟨v, c, t⟩)

/-- Two concurrent `submit_exam_attempt` calls under READ COMMITTED
statement-level visibility, interleaved so that both check statements run
before either update statement (schedule: check1, check2, write1, write2;
the grading SELECTs read the `questions` table, which neither call writes).
Each call performs its write only if its own check succeeded; the returned
options are what each call reports to its client (`none` = the call raised
the `Invalid attempt` exception). -/
def submitInterleaved (db : DB)
    (a1 s1 : String) (ans1 : List (String × String)) (now1 : Nat)
    (a2 s2 : String) (ans2 : List (String × String)) (now2 : Nat) :
    DB × Option SubmitResult × Option SubmitResult :=
  let r1 := submitCheck db a1 s1
  let r2 := submitCheck db a2 s2
  let res1 := r1.map (fun examId =>
    let qs := examQuestions db examId
    let c := correctCount qs ans1
    (⟨computeScore c qs.length, c, qs.length⟩ : SubmitResult))
  let db1 := match res1 with
    | some r => submitWrite db a1 s1 ans1 r.score now1
    | none => db
  let res2 := r2.map (fun examId =>
    let qs := examQuestions db1 examId
    let c := correctCount qs ans2
    (⟨computeScore c qs.length, c, qs.length⟩ : SubmitResult))
  let db2 := match res2 with
    | some r => submitWrite db1 a2 s2 ans2 r.score now2
    | none => db1
  (db2, res1, res2)

/-! ## Exam timer (`ExamTimer` component)

`const endTime = new Date(startedAt.getTime() + timeLimitMinutes * 60 * 1000)`;
each tick runs `updateTimer`, which computes
`Math.max(0, Math.floor((endTime.getTime() - now.getTime()) / 1000))`,
displays it, and calls `onTimeUp()` whenever `remaining <= 0`. -/

def endTimeMs (startedAtMs timeLimitMinutes : Nat) : Nat :=
  startedAtMs + timeLimitMinutes * 60 * 1000

/-- The remaining seconds computed by `updateTimer` at a sampling instant
(`Math.floor` on an exact division of integers is `Int.fdiv`). -/
def updateTimerRemaining (startedAtMs timeLimitMinutes nowMs : Nat) : Int :=
  max 0 (Int.fdiv ((endTimeMs startedAtMs timeLimitMinutes : Int) - (nowMs : Int)) 1000)

/-- `if (remaining <= 0) { onTimeUp(); }`: whether a tick at this instant
invokes the `onTimeUp` callback. -/
def tickFiresTimeUp (startedAtMs timeLimitMinutes nowMs : Nat) : Bool :=
  decide (updateTimerRemaining startedAtMs timeLimitMinutes nowMs ≤ 0)

/-- How many times `onTimeUp` is invoked over a sequence of tick instants. -/
def countTimeUpFirings (startedAtMs timeLimitMinutes : Nat) (ticks : List Nat) : Nat :=
  (ticks.filter (fun nowMs => tickFiresTimeUp startedAtMs timeLimitMinutes nowMs)).length

/-- The displayed value after a sequence of ticks starting from display `d`:
each tick overwrites the display with the freshly computed remaining value
(`setTimeRemaining(remaining)`); no tick reads the previous display. -/
def runTicks (startedAtMs timeLimitMinutes : Nat) (d : Int) : List Nat → Int
  | [] => d
  | nowMs :: ts =>
      runTicks startedAtMs timeLimitMinutes
        (updateTimerRemaining startedAtMs timeLimitMinutes nowMs) ts

/-- The spec formula for the timer, `remaining = max(0, end_time - now)`,
at the whole-second granularity of the display (truncated subtraction on
naturals is exactly max 0 of the difference). -/
def specRemainingSeconds (startedAtMs timeLimitMinutes nowMs : Nat) : Nat :=
  (endTimeMs startedAtMs timeLimitMinutes - nowMs) / 1000

/-! ## `public.start_exam_attempt` (latest migration, solo_mode support)

PL/pgSQL boolean conditions over nullable columns follow SQL three-valued
logic; an `IF cond THEN RAISE` takes the branch only when cond is TRUE. -/

/-- SQL NOT over a three-valued boolean (`none` = NULL/UNKNOWN). -/
def sqlNot : Option Bool → Option Bool
  | some b => some (!b)
  | none => none

/-- SQL AND over three-valued booleans. -/
def sqlAnd : Option Bool → Option Bool → Option Bool
  | some false, _ => some false
  | _, some false => some false
  | some true, some true => some true
  | _, _ => none

/-- SQL equality of nullable uuids: NULL when either side is NULL. -/
def sqlEqNullable (a b : Option String) : Option Bool :=
  match a, b with
  | some x, some y => some (x == y)
  | _, _ => none

/-- SQL `!=` of nullable uuids. -/
def sqlNeqNullable (a b : Option String) : Option Bool :=
  sqlNot (sqlEqNullable a b)

/-- A plpgsql IF takes its branch exactly when the condition is TRUE. -/
def sqlIsTrue : Option Bool → Bool
  | some true => true
  | _ => false

/-- `IF NOT v_is_published AND NOT (v_is_solo AND v_created_by = auth.uid())
THEN RAISE 'Exam is not available'`. -/
def startVisibilityBlocked (e : Exam) (uid : Option String) : Bool :=
  sqlIsTrue (sqlAnd (sqlNot e.is_published)
    (sqlNot (sqlAnd (some e.solo_mode) (sqlEqNullable e.created_by uid))))

/-- `IF v_is_solo AND v_created_by != auth.uid()
THEN RAISE 'This exam is only available in solo mode for the owner'`. -/
def startSoloBlocked (e : Exam) (uid : Option String) : Bool :=
  sqlIsTrue (sqlAnd (some e.solo_mode) (sqlNeqNullable e.created_by uid))

inductive StartError where
  | notFound
  | forbidden
deriving DecidableEq

/-- `public.start_exam_attempt(p_exam_id, p_session_id, p_student_name,
p_student_email)` from the 2026-02-09 migration. `uid` is `auth.uid()`
(NULL for an anonymous caller); `newId` is the uuid generated for the
inserted row and `now` its `started_at` default. The INSERT lists only
(exam_id, session_id, student_name, student_email): every other column
takes its default, so `answers`, `score` and `submitted_at` are NULL. -/
def start_exam_attempt (db : DB) (examId sessionId : String) (uid : Option String)
    (name email : Option String) (newId : String) (now : Nat) :
    Except StartError (DB × String × Nat) :=
  match db.exams.find? (fun e => e.id == examId) with
  | none => .error .notFound
  | some e =>
      if startVisibilityBlocked e uid then .error .forbidden
      else if startSoloBlocked e uid then .error .forbidden
      else
        let row : Attempt :=
          { id := newId, exam_id := examId, session_id := some sessionId,
            student_name := name, student_email := email,
            answers := none, score := none, started_at := now, submitted_at := none }
        .ok ({ db with attempts := db.attempts ++ [row] }, newId, now)

/-- Whether the caller is known to be a different user than the exam owner:
created_by and auth.uid() are both non-null and distinct. Under SQL
three-valued logic this — not plain inequality — is what the two RAISE
checks of `start_exam_attempt` can detect: a NULL on either side makes both
conditions UNKNOWN, so neither check fires. -/
def knownDistinctOwner (cb uid : Option String) : Bool :=
  match cb, uid with
  | some v, some u => v != u
  | _, _ => false

/-- The exact success condition of `start_exam_attempt` on a found exam,
read off from the two RAISE checks under SQL three-valued logic: a
solo-mode exam is rejected exactly when the caller is known to differ from
the owner; a non-solo exam is rejected exactly when is_published is FALSE
(a NULL is_published raises neither check). -/
def startAllowed (e : Exam) (uid : Option String) : Bool :=
  (e.solo_mode && !(knownDistinctOwner e.created_by uid)) ||
  (!e.solo_mode && !(e.is_published == some false))

/-! ## Redacted question projection (`student_exam_questions` view)

Rows are modelled as association lists from column name to field value, so
that the presence or absence of a column in a payload is directly statable. -/

inductive FieldValue where
  | str : String → FieldValue
  | optStr : Option String → FieldValue
  | strList : List String → FieldValue
  | int : Int → FieldValue
  | nat : Nat → FieldValue
deriving DecidableEq

/-- A full `questions` table row, one pair per column: the CREATE TABLE
columns in order, with the later `explanation` column appended. -/
def questionRow (q : Question) : List (String × FieldValue) :=
  [("id", .str q.id), ("exam_id", .str q.exam_id),
   ("question_text", .str q.question_text), ("question_type", .str q.question_type),
   ("options", .strList q.options), ("correct_answer", .optStr q.correct_answer),
   ("image_url", .optStr q.image_url), ("solution", .optStr q.solution),
   ("order_index", .int q.order_index), ("created_at", .nat q.created_at),
   ("explanation", .optStr q.explanation)]

/-- The SELECT list of the `student_exam_questions` view (latest migration):
`q.id, q.exam_id, q.question_text, q.question_type, q.options, q.order_index,
q.image_url, q.created_at`. -/
def studentQuestionRow (q : Question) : List (String × FieldValue) :=
  [("id", .str q.id), ("exam_id", .str q.exam_id),
   ("question_text", .str q.question_text), ("question_type", .str q.question_type),
   ("options", .strList q.options), ("order_index", .int q.order_index),
   ("image_url", .optStr q.image_url), ("created_at", .nat q.created_at)]

/-- Drop the named fields from a row. -/
def removeFields (names : List String) (row : List (String × FieldValue)) :
    List (String × FieldValue) :=
  row.filter (fun p => !(names.contains p.1))

/-- The three answer-key fields the spec says the candidate projection strips. -/
def redactedNames : List String := ["correct_answer", "solution", "explanation"]

/-- The view's WHERE clause,
`e.is_published = true OR (e.solo_mode = true AND e.created_by = auth.uid())`,
under SQL null semantics: a row qualifies only when the condition is TRUE. -/
def viewVisible (e : Exam) (uid : Option String) : Bool :=
  (e.is_published == some true) || (e.solo_mode && sqlEqText e.created_by uid)

/-- `student_exam_questions`: `FROM questions q JOIN exams e ON e.id = q.exam_id
WHERE ...` with the SELECT list above. This is the source the pre-submission
fetch in `TakeExam` reads (`supabase.from('student_exam_questions')`). -/
def student_exam_questions (db : DB) (uid : Option String) :
    List (List (String × FieldValue)) :=
  (db.questions.filter (fun q =>
      (db.exams.find? (fun e => e.id == q.exam_id)).elim false
        (fun e => viewVisible e uid))).map studentQuestionRow

/-- SQL OR over three-valued booleans. -/
def sqlOr : Option Bool → Option Bool → Option Bool
  | some true, _ => some true
  | _, some true => some true
  | some false, some false => some false
  | _, _ => none

/-- The SELECT policy "Users can view questions of their exams" on the
`questions` table, from the 2026-01-10 migration and never dropped by the
later migrations:
`USING (EXISTS (SELECT 1 FROM exams WHERE exams.id = questions.exam_id AND
(exams.created_by = auth.uid() OR exams.is_published = true)))`.
A question row is readable exactly when the condition is TRUE for some
exam row (`exams.is_published = true` is the three-valued value of the
nullable column itself; the policy never consults attempts). -/
def questionsSelectPolicy (db : DB) (uid : Option String) (q : Question) : Bool :=
  db.exams.any (fun e =>
    e.id == q.exam_id &&
    sqlIsTrue (sqlOr (sqlEqNullable e.created_by uid) e.is_published))

/-- What a plain `supabase.from('questions').select('*').eq('exam_id', ...)`
query delivers to a caller under row-level security: the full row —
correct_answer, solution and explanation included — of every question of
the exam that the SELECT policy lets the caller read. TakeExam itself
issues exactly this query for its results view, and nothing in the policy
or the query consults the caller's attempt or its submitted_at. -/
def questionsTableSelect (db : DB) (uid : Option String) (examId : String) :
    List (List (String × FieldValue)) :=
  ((db.questions.filter (fun q => q.exam_id == examId)).filter
    (fun q => questionsSelectPolicy db uid q)).map questionRow

/-! ## Exam-taking state machine (`TakeExam` component)

Only the submission-relevant state is modelled: the `attemptId`,
`submitting`, `showSummary` and `showSubmitDialog` state hooks, the fetched
question ids and the local answer map. -/

structure TakeExamState where
  attemptId : Option String
  submitting : Bool
  submitted : Bool
  showSummary : Bool
  showSubmitDialog : Bool
  questions : List String
  answers : List (String × String)
deriving DecidableEq

/-- JavaScript `String.prototype.trim` as used in `answers[key]?.trim()`:
strips leading and trailing whitespace characters. -/
def jsTrim (s : String) : String :=
  String.mk
    (((s.data.dropWhile Char.isWhitespace).reverse.dropWhile Char.isWhitespace).reverse)

/-- `Object.keys(answers).filter(key => answers[key]?.trim()).length`:
keys whose value trims to a non-empty string (an empty string is falsy). -/
def answeredCount (s : TakeExamState) : Nat :=
  (s.answers.filter (fun p => !(jsTrim p.2 == ""))).length

/-- `const unansweredCount = questions.length - answeredCount`. -/
def unansweredCount (s : TakeExamState) : Nat :=
  s.questions.length - answeredCount s

/-- `submitExam`: `if (!attemptId || submitting) return;` then
`setSubmitting(true)` and fire the `submit_exam_attempt` RPC.
The returned Bool records whether the RPC was issued. -/
def submitExam (s : TakeExamState) : TakeExamState × Bool :=
  if s.attemptId.isNone || s.submitting then (s, false)
  else ({ s with submitting := true }, true)

/-- `handleTimeUp`: shows a toast and calls `submitExam()` directly. -/
def handleTimeUp (s : TakeExamState) : TakeExamState × Bool :=
  submitExam s

/-- `handleFinalSubmit`: `if (unansweredCount > 0) setShowSubmitDialog(true);
else submitExam();`. -/
def handleFinalSubmit (s : TakeExamState) : TakeExamState × Bool :=
  if 0 < unansweredCount s then ({ s with showSubmitDialog := true }, false)
  else submitExam s

/-- The confirmation dialog's `AlertDialogAction onClick={submitExam}`:
the candidate acknowledges and the submit fires. -/
def confirmSubmitAnyway (s : TakeExamState) : TakeExamState × Bool :=
  submitExam s

/-- The submit triggers: the explicit candidate click on the review screen,
the timer's time-up callback, and the acknowledgement of the
unanswered-questions dialog. -/
inductive TakeEvent where
  | finalSubmitClick
  | timeUp
  | confirmDialog
deriving DecidableEq

def stepEvent : TakeEvent → TakeExamState → TakeExamState × Bool
  | .finalSubmitClick, s => handleFinalSubmit s
  | .timeUp, s => handleTimeUp s
  | .confirmDialog, s => confirmSubmitAnyway s

/-- Number of submit RPCs issued over a sequence of triggers (with no
completion in between: the in-flight call has not resolved yet). -/
def rpcCount (s : TakeExamState) : List TakeEvent → Nat
  | [] => 0
  | e :: es =>
      (if (stepEvent e s).2 then 1 else 0) + rpcCount (stepEvent e s).1 es

/-! ## Spec-side definitions (for refinement comparisons only)

These follow the wording of the specification, to be compared with the
definitions translated from the source. -/

/-- Spec-side grading predicate: the supplied answers map holds, under the
question's id, a string exactly equal (case-sensitive, no trimming) to the
question's `correct_answer`. -/
def specMatches (answers : List (String × String)) (q : Question) : Prop :=
  ∃ s, answers.lookup q.id = some s ∧ q.correct_answer = some s

/-- Spec-side score: `round(correct_count / total_count * 100)` over the
rationals (round = nearest, halves up), and 0 when total_count = 0. -/
def specScore (c t : Nat) : Nat :=
  if t = 0 then 0 else (round ((c : ℚ) * 100 / (t : ℚ))).toNat

/-! ## Concrete fixtures -/

def examEx : Exam :=
  { id := "e1", title := "Sample", is_published := some true, solo_mode := false,
    created_by := some "u1", time_limit_minutes := some 10 }

def q1Ex : Question :=
  { id := "q1", exam_id := "e1", question_text := "Capital of France?",
    question_type := "multiple_choice", options := ["Paris", "Rome"],
    correct_answer := some "A", image_url := none, solution := none,
    explanation := none, order_index := 0, created_at := 0 }

def q2Ex : Question :=
  { id := "q2", exam_id := "e1", question_text := "2 + 2?",
    question_type := "multiple_choice", options := ["3", "4"],
    correct_answer := some "B", image_url := none, solution := some "sol",
    explanation := some "exp", order_index := 1, created_at := 0 }

def attEx : Attempt :=
  { id := "at1", exam_id := "e1", session_id := some "s1",
    student_name := none, student_email := none, answers := none,
    score := none, started_at := 0, submitted_at := none }

/-- A database with one published exam, two questions and one open attempt. -/
def dbEx : DB := { exams := [examEx], questions := [q1Ex, q2Ex], attempts := [attEx] }

def ansEx : List (String × String) := [("q1", "A"), ("q2", "C")]

/-- The database after `submit_exam_attempt dbEx "at1" "s1" ansEx 7`. -/
def dbEx' : DB :=
  { dbEx with attempts :=
      [{ attEx with answers := some ansEx, score := some 50, submitted_at := some 7 }] }

/-- A published exam that is also in solo mode, owned by "owner". -/
def examSolo : Exam :=
  { id := "e2", title := "Solo", is_published := some true, solo_mode := true,
    created_by := some "owner", time_limit_minutes := none }

def dbSolo : DB := { exams := [examSolo], questions := [], attempts := [] }

/-- An unpublished solo-mode exam, owned by "owner". -/
def examSoloPriv : Exam :=
  { id := "e3", title := "Priv", is_published := some false, solo_mode := true,
    created_by := some "owner", time_limit_minutes := none }

def dbSoloPriv : DB := { exams := [examSoloPriv], questions := [], attempts := [] }

/-- The row an anonymous `start_exam_attempt dbSoloPriv "e3" "anon" ...`
call inserts. -/
def rowAnon : Attempt :=
  { id := "a1", exam_id := "e3", session_id := some "anon",
    student_name := none, student_email := none, answers := none,
    score := none, started_at := 0, submitted_at := none }

/-- A database with the published exam and no attempts yet. -/
def dbStart : DB := { exams := [examEx], questions := [], attempts := [] }

/-- The row `start_exam_attempt dbStart "e1" "s1" ... "a1" 5` inserts. -/
def rowStart : Attempt :=
  { id := "a1", exam_id := "e1", session_id := some "s1",
    student_name := none, student_email := none, answers := none,
    score := none, started_at := 5, submitted_at := none }

/-- A review-screen state: five questions, three of them answered, an open
attempt, no submit in flight. -/
def stateEx : TakeExamState :=
  { attemptId := some "a1", submitting := false, submitted := false,
    showSummary := true, showSubmitDialog := false,
    questions := ["q1", "q2", "q3", "q4", "q5"],
    answers := [("q1", "A"), ("q2", "B"), ("q3", "C")] }

/-- A copy of the review state with a submit already in flight. -/
def stateSub : TakeExamState := { stateEx with submitting := true }

/-- A copy of the review state before any attempt row exists. -/
def stateNoAtt : TakeExamState := { stateEx with attemptId := none }

/-- Repeated submit triggers: the timer fires again, the candidate
double-clicks, the dialog is acknowledged. -/
def evtsEx : List TakeEvent :=
  [TakeEvent.timeUp, TakeEvent.finalSubmitClick, TakeEvent.confirmDialog]

/-! ## Helper lemmas -/

theorem updateTimerRemaining_eq_spec (s L now : Nat) :
    updateTimerRemaining s L now = (specRemainingSeconds s L now : Int) := by
  unfold updateTimerRemaining specRemainingSeconds
  rw [Int.fdiv_eq_ediv _ (by norm_num)]
  omega

theorem runTicks_last (s L : Nat) :
    ∀ (ts : List Nat) (d : Int) (t : Nat),
      runTicks s L d (ts ++ [t]) = updateTimerRemaining s L t := by
  intro ts
  induction ts with
  | nil => intro d t; rfl
  | cons x xs ih => intro d t; simpa [runTicks] using ih _ t

/-! ## Claims -/

/-- Claim C8: the displayed remaining time at any sampling instant `now`
equals max(0, end_time − now) (at the whole-second granularity of the
display), it is recomputed from the absolute end time — the value after any
sequence of ticks is the formula at the last tick alone, independent of
which earlier ticks ran — and any instant at or after the end time reports
remaining = 0. -/
theorem c8_timer_absolute_derivation (s L now : Nat) :
    updateTimerRemaining s L now = (specRemainingSeconds s L now : Int) ∧
    (endTimeMs s L ≤ now → updateTimerRemaining s L now = 0) ∧
    (∀ (d : Int) (ts : List Nat) (t : Nat),
      runTicks s L d (ts ++ [t]) = updateTimerRemaining s L t) := by
  refine ⟨updateTimerRemaining_eq_spec s L now, ?_, fun d ts t => runTicks_last s L ts d t⟩
  intro h
  rw [updateTimerRemaining_eq_spec s L now]
  unfold specRemainingSeconds
  omega

/-- Witness for C8 at start_time = 0, limit = 10 minutes, sampled at
600123 ms (just past the end), after two earlier ticks. -/
theorem c8_timer_absolute_derivation_witness :
    updateTimerRemaining 0 10 600123 = (specRemainingSeconds 0 10 600123 : Int) ∧
    updateTimerRemaining 0 10 600123 = 0 ∧
    runTicks 0 10 0 ([400000, 500000] ++ [600123]) = updateTimerRemaining 0 10 600123 := by
  obtain ⟨h1, h2, h3⟩ := c8_timer_absolute_derivation 0 10 600123
  exact ⟨h1, h2 (by decide), h3 0 [400000, 500000] 600123⟩

/-- Claim C4 is false on the code: with start_time = 0 and limit_minutes
= 10, the ticks at 601 s and 602 s are both at or after the end time, and
each of them invokes `onTimeUp` — the callback fires twice, not exactly
once, because `updateTimer` has no guard against repeated firing. -/
theorem c4_counterexample_repeated_firing :
    endTimeMs 0 10 ≤ 601000 ∧ endTimeMs 0 10 ≤ 602000 ∧
    countTimeUpFirings 0 10 [601000, 602000] = 2 := by decide

/-- Claim C4 (amended): once remaining reaches 0, every tick at or after
start_time + limit_minutes reports remaining = 0 and invokes the `onTimeUp`
callback again; the timer itself does not deduplicate the firing. -/
theorem c4_amended_late_ticks_fire (s L now : Nat) (h : endTimeMs s L ≤ now) :
    updateTimerRemaining s L now = 0 ∧ tickFiresTimeUp s L now = true := by
  have h0 : updateTimerRemaining s L now = 0 := by
    rw [updateTimerRemaining_eq_spec s L now]
    unfold specRemainingSeconds
    omega
  refine ⟨h0, ?_⟩
  unfold tickFiresTimeUp
  rw [h0]
  decide

/-- Witness for the amended C4 at start_time = 0, limit = 10 minutes,
sampled at 601 s. -/
theorem c4_amended_late_ticks_fire_witness :
    updateTimerRemaining 0 10 601000 = 0 ∧ tickFiresTimeUp 0 10 601000 = true :=
  c4_amended_late_ticks_fire 0 10 601000 (by decide)

/-- Claim C1: the claim's at-most-once/atomicity guarantee fails on the
code. The check statement and the update statement of `submit_exam_attempt`
are two separate SQL statements and the update's WHERE clause does not
recheck `submitted_at IS NULL`, so two concurrent submits for the same
attempt, interleaved check₁ check₂ write₁ write₂ (as READ COMMITTED
permits), both return success, and the second overwrites the answers, score
and submitted_at written by the first. -/
theorem c1_concurrent_double_submit_bug :
    (submitInterleaved dbEx "at1" "s1" [("q1", "A")] 100 "at1" "s1" [("q1", "B")] 200).2.1
      = some ⟨50, 1, 2⟩ ∧
    (submitInterleaved dbEx "at1" "s1" [("q1", "A")] 100 "at1" "s1" [("q1", "B")] 200).2.2
      = some ⟨0, 0, 2⟩ ∧
    (submitInterleaved dbEx "at1" "s1" [("q1", "A")] 100 "at1" "s1" [("q1", "B")] 200).1.attempts.map
        (fun a => (a.answers, a.score, a.submitted_at))
      = [(some [("q1", "B")], some 0, some 200)] ∧
    submit_exam_attempt dbEx' "at1" "s1" [("q1", "B")] 200
      = .error .invalidAttempt :=
  ⟨rfl, rfl, rfl, rfl⟩

theorem blocked1_eq (pub : Option Bool) (solo : Bool) (cb uid : Option String) :
    sqlIsTrue (sqlAnd (sqlNot pub)
        (sqlNot (sqlAnd (some solo) (sqlEqNullable cb uid))))
      = ((pub == some false) && (!solo || knownDistinctOwner cb uid)) := by
  rcases cb with - | v
  · rcases pub with - | pb
    · cases solo <;> rcases uid with - | u <;> rfl
    · cases pb <;> cases solo <;> rcases uid with - | u <;> rfl
  · rcases uid with - | u
    · rcases pub with - | pb
      · cases solo <;> rfl
      · cases pb <;> cases solo <;> rfl
    · simp only [knownDistinctOwner, sqlEqNullable, bne]
      cases hvu : v == u <;> rcases pub with - | pb
      · cases solo <;> rfl
      · cases pb <;> cases solo <;> rfl
      · cases solo <;> rfl
      · cases pb <;> cases solo <;> rfl

theorem blocked2_eq (solo : Bool) (cb uid : Option String) :
    sqlIsTrue (sqlAnd (some solo) (sqlNeqNullable cb uid))
      = (solo && knownDistinctOwner cb uid) := by
  rcases cb with - | v
  · cases solo <;> rcases uid with - | u <;> rfl
  · rcases uid with - | u
    · cases solo <;> rfl
    · simp only [knownDistinctOwner, sqlNeqNullable, sqlEqNullable, bne]
      cases hvu : v == u <;> cases solo <;> rfl

/-- Claim C5 is false on the code, in both directions. First, `examSolo`
exists and has is_published = true, so the claim's precondition
"is_published is true, or solo_mode and caller is the owner" holds for any
caller, yet `start_exam_attempt` rejects the non-owner caller "student"
with the forbidden error. Second, `examSoloPriv` is unpublished and
solo-mode with a non-null owner, so for an anonymous caller the claim's
precondition fails and it requires ForbiddenError, yet the call succeeds
and inserts an attempt: with auth.uid() NULL both RAISE conditions are
UNKNOWN under SQL three-valued logic, so neither check fires. -/
theorem c5_counterexample_published_solo :
    (examSolo.is_published = some true ∧
      dbSolo.exams.find? (fun e => e.id == "e2") = some examSolo ∧
      start_exam_attempt dbSolo "e2" "sess" (some "student") none none "a1" 0
        = .error .forbidden) ∧
    (examSoloPriv.is_published = some false ∧
      examSoloPriv.solo_mode = true ∧
      examSoloPriv.created_by = some "owner" ∧
      start_exam_attempt dbSoloPriv "e3" "anon" none none none "a1" 0
        = .ok ({ dbSoloPriv with attempts := [rowAnon] }, "a1", 0)) :=
  ⟨⟨rfl, rfl, rfl⟩, rfl, rfl, rfl, rfl⟩

/-- Claim C5 (amended): for every caller (anonymous included) and every
exam, `start` succeeds and inserts a new attempt iff the exam exists and
`startAllowed` holds, i.e. under SQL three-valued logic: a solo-mode exam
is rejected exactly when created_by and auth.uid() are both non-null and
different, and a non-solo exam is rejected exactly when is_published is
FALSE; it fails with NotFoundError when exam_id is unknown and with
ForbiddenError when the check fails. In particular a published solo-mode
exam is forbidden to every authenticated non-owner, while an anonymous
caller (or a NULL-owner exam) passes the solo check even unpublished, and
a NULL is_published passes the non-solo check. -/
theorem c5_amended_start_visibility (db : DB) (examId sessionId : String)
    (uid name email : Option String) (newId : String) (now : Nat) :
    (db.exams.find? (fun x => x.id == examId) = none →
      start_exam_attempt db examId sessionId uid name email newId now
        = .error .notFound) ∧
    (∀ e : Exam,
      db.exams.find? (fun x => x.id == examId) = some e →
      (startAllowed e uid = true →
        start_exam_attempt db examId sessionId uid name email newId now
          = .ok ({ db with attempts := db.attempts ++
              [{ id := newId, exam_id := examId, session_id := some sessionId,
                 student_name := name, student_email := email, answers := none,
                 score := none, started_at := now, submitted_at := none }] },
              newId, now)) ∧
      (startAllowed e uid = false →
        start_exam_attempt db examId sessionId uid name email newId now
          = .error .forbidden)) := by
  constructor
  · intro h
    simp only [start_exam_attempt, h]
  · intro e hfind
    have hb1 : startVisibilityBlocked e uid
        = ((e.is_published == some false) &&
           (!e.solo_mode || knownDistinctOwner e.created_by uid)) :=
      blocked1_eq e.is_published e.solo_mode e.created_by uid
    have hb2 : startSoloBlocked e uid
        = (e.solo_mode && knownDistinctOwner e.created_by uid) :=
      blocked2_eq e.solo_mode e.created_by uid
    constructor
    · intro hok
      by_cases hs : e.solo_mode = true
      · have hD : knownDistinctOwner e.created_by uid = false := by
          cases hD' : knownDistinctOwner e.created_by uid
          · rfl
          · simp [startAllowed, hs, hD'] at hok
        simp [start_exam_attempt, hfind, hb1, hb2, hs, hD]
      · have hs0 : e.solo_mode = false := by
          cases hsm : e.solo_mode
          · rfl
          · exact absurd hsm hs
        have hpub : (e.is_published == some false) = false := by
          cases hp' : (e.is_published == some false)
          · rfl
          · simp [startAllowed, hs0, hp'] at hok
        simp [start_exam_attempt, hfind, hb1, hb2, hs0, hpub]
    · intro hbad
      by_cases hs : e.solo_mode = true
      · have hD : knownDistinctOwner e.created_by uid = true := by
          cases hD' : knownDistinctOwner e.created_by uid
          · simp [startAllowed, hs, hD'] at hbad
          · rfl
        cases hp' : (e.is_published == some false) <;>
          simp [start_exam_attempt, hfind, hb1, hb2, hs, hD, hp']
      · have hs0 : e.solo_mode = false := by
          cases hsm : e.solo_mode
          · rfl
          · exact absurd hsm hs
        have hpub : (e.is_published == some false) = true := by
          cases hp' : (e.is_published == some false)
          · simp [startAllowed, hs0, hp'] at hbad
          · rfl
        simp [start_exam_attempt, hfind, hb1, hb2, hs0, hpub]

/-- Witness for the amended C5 in both directions: the published non-solo
exam `examEx` is startable by the non-owner caller "alice" and the call
appends the expected attempt row, while the published solo exam `examSolo`
is forbidden to the authenticated non-owner "student". -/
theorem c5_amended_start_visibility_witness :
    (start_exam_attempt dbStart "e1" "sess" (some "alice") none none "a9" 3
      = .ok ({ dbStart with attempts := dbStart.attempts ++
          [{ id := "a9", exam_id := "e1", session_id := some "sess",
             student_name := none, student_email := none, answers := none,
             score := none, started_at := 3, submitted_at := none }] }, "a9", 3)) ∧
    start_exam_attempt dbSolo "e2" "sess2" (some "student") none none "b1" 4
      = .error .forbidden :=
  ⟨((c5_amended_start_visibility dbStart "e1" "sess" (some "alice") none none
      "a9" 3).2 examEx rfl).1 (by decide),
   ((c5_amended_start_visibility dbSolo "e2" "sess2" (some "student") none none
      "b1" 4).2 examSolo rfl).2 (by decide)⟩

/-- Claim C9 is false on the code: the successful `start_exam_attempt`
call below inserts a row whose `answers` column is NULL rather than the
empty map — the INSERT in the latest migration does not list the `answers`
column and the column has no default. -/
theorem c9_counterexample_answers_null :
    start_exam_attempt dbStart "e1" "s1" (some "u9") none none "a1" 5
      = .ok ({ dbStart with attempts := [rowStart] }, "a1", 5) ∧
    rowStart.submitted_at = none ∧ rowStart.answers = none ∧
    rowStart.answers ≠ some [] :=
  ⟨rfl, rfl, rfl, by decide⟩

/-- Claim C9 (amended): every successful start call inserts exactly one new
Attempt row whose submitted_at is null; the row's answers column is left
NULL — the current INSERT no longer initializes it to the empty map — and
its score is NULL as well. -/
theorem c9_amended_start_inserts_row (db : DB) (examId sessionId : String)
    (uid name email : Option String) (newId : String) (now : Nat)
    (db' : DB) (aid : String) (st : Nat)
    (h : start_exam_attempt db examId sessionId uid name email newId now
          = .ok (db', aid, st)) :
    ∃ row : Attempt, db'.attempts = db.attempts ++ [row] ∧
      db'.attempts.length = db.attempts.length + 1 ∧
      row.submitted_at = none ∧ row.answers = none ∧ row.score = none := by
  unfold start_exam_attempt at h
  split at h
  · exact absurd h (by simp)
  · split at h
    · exact absurd h (by simp)
    · split at h
      · exact absurd h (by simp)
      · simp only [Except.ok.injEq, Prod.mk.injEq] at h
        obtain ⟨hdb, -, -⟩ := h
        refine ⟨{ id := newId, exam_id := examId, session_id := some sessionId,
                  student_name := name, student_email := email, answers := none,
                  score := none, started_at := now, submitted_at := none },
                ?_, ?_, rfl, rfl, rfl⟩
        · rw [← hdb]
        · rw [← hdb]
          simp

/-- Witness for the amended C9 at the concrete call of the counterexample. -/
theorem c9_amended_start_inserts_row_witness :
    ∃ row : Attempt,
      ({ dbStart with attempts := [rowStart] } : DB).attempts
          = dbStart.attempts ++ [row] ∧
      ({ dbStart with attempts := [rowStart] } : DB).attempts.length
          = dbStart.attempts.length + 1 ∧
      row.submitted_at = none ∧ row.answers = none ∧ row.score = none :=
  c9_amended_start_inserts_row dbStart "e1" "s1" (some "u9") none none "a1" 5
    { dbStart with attempts := [rowStart] } "a1" 5 rfl

theorem computeScore_eq_specScore (c t : Nat) : computeScore c t = specScore c t := by
  unfold computeScore specScore
  rcases Nat.eq_zero_or_pos t with h | h
  · simp [h]
  · rw [if_pos h, if_neg (Nat.pos_iff_ne_zero.mp h)]
    have ht : (t : ℚ) ≠ 0 := Nat.cast_ne_zero.mpr (Nat.pos_iff_ne_zero.mp h)
    have key : (c : ℚ) * 100 / (t : ℚ) + 1 / 2
        = ((200 * c + t : ℕ) : ℚ) / ((2 * t : ℕ) : ℚ) := by
      push_cast
      field_simp
      ring
    rw [round_eq, key, Int.floor_toNat, Nat.floor_div_eq_div]

theorem questionMatched_iff_specMatches (answers : List (String × String))
    (q : Question) :
    questionMatched answers q = true ↔ specMatches answers q := by
  unfold questionMatched specMatches jsonbGetText sqlEqText
  cases h1 : answers.lookup q.id <;> cases h2 : q.correct_answer
  · simp
  · simp
  · simp
  · simp only [beq_iff_eq, Option.some.injEq]
    constructor
    · intro hb
      exact ⟨_, hb, rfl⟩
    · rintro ⟨s, hs1, hs2⟩
      exact hs1.trans hs2.symm

theorem questionMatched_false_of_none (answers : List (String × String))
    (q : Question)
    (h : q.correct_answer = none ∨ answers.lookup q.id = none) :
    questionMatched answers q = false := by
  unfold questionMatched jsonbGetText
  rcases h with h | h <;> rw [h]
  · cases answers.lookup q.id <;> rfl
  · cases q.correct_answer <;> rfl

theorem computeScore_le_100 {c t : Nat} (h : c ≤ t) : computeScore c t ≤ 100 := by
  unfold computeScore
  split
  · next ht =>
      have h2t : 0 < 2 * t := by omega
      have hlt : (200 * c + t) / (2 * t) < 101 := by
        rw [Nat.div_lt_iff_lt_mul h2t]
        omega
      omega
  · omega

/-- Claim C2: in every successful `submit_exam_attempt` call, a question
counts as correct iff the supplied answers map holds, under its id, a
string exactly equal (case-sensitive, no normalization) to its
correct_answer; correct_count is the number of such questions; total_count
is the number of questions of the exam regardless of how many answers were
supplied; and score = round(correct_count / total_count * 100), with 0 when
total_count = 0. -/
theorem c2_scoring_algorithm (db : DB) (attemptId sessionId : String)
    (answers : List (String × String)) (now : Nat) (db' : DB) (r : SubmitResult)
    (h : submit_exam_attempt db attemptId sessionId answers now = .ok (db', r)) :
    ∃ examId, submitCheck db attemptId sessionId = some examId ∧
      r.total_count = (examQuestions db examId).length ∧
      r.correct_count
        = ((examQuestions db examId).filter (questionMatched answers)).length ∧
      (∀ q ∈ examQuestions db examId,
        questionMatched answers q = true ↔ specMatches answers q) ∧
      r.score = specScore r.correct_count r.total_count := by
  unfold submit_exam_attempt at h
  split at h
  · exact absurd h (by simp)
  · next examId heq =>
      simp only [Except.ok.injEq, Prod.mk.injEq] at h
      obtain ⟨-, hr⟩ := h
      subst hr
      exact ⟨examId, heq, rfl, rfl,
        fun q _ => questionMatched_iff_specMatches answers q,
        computeScore_eq_specScore _ _⟩

/-- Witness for C2: submitting answers (q1 ↦ "A", q2 ↦ "C") against the
two-question exam of `dbEx` returns score 50, correct_count 1,
total_count 2. -/
theorem c2_scoring_algorithm_witness :
    ∃ examId, submitCheck dbEx "at1" "s1" = some examId ∧
      (SubmitResult.mk 50 1 2).total_count = (examQuestions dbEx examId).length ∧
      (SubmitResult.mk 50 1 2).correct_count
        = ((examQuestions dbEx examId).filter (questionMatched ansEx)).length ∧
      (∀ q ∈ examQuestions dbEx examId,
        questionMatched ansEx q = true ↔ specMatches ansEx q) ∧
      (SubmitResult.mk 50 1 2).score
        = specScore (SubmitResult.mk 50 1 2).correct_count
            (SubmitResult.mk 50 1 2).total_count :=
  c2_scoring_algorithm dbEx "at1" "s1" ansEx 7 dbEx' ⟨50, 1, 2⟩ rfl

/-- Claim C10: in every successful `submit_exam_attempt` call, a question
whose correct_answer is NULL is graded incorrect for every supplied answer,
and a question absent from the supplied answers map is graded incorrect;
consequently correct_count ≤ total_count and the returned score lies
between 0 and 100. -/
theorem c10_score_bounds (db : DB) (attemptId sessionId : String)
    (answers : List (String × String)) (now : Nat) (db' : DB) (r : SubmitResult)
    (h : submit_exam_attempt db attemptId sessionId answers now = .ok (db', r)) :
    r.correct_count ≤ r.total_count ∧ r.score ≤ 100 ∧
    ∀ q : Question, (q.correct_answer = none ∨ answers.lookup q.id = none) →
      questionMatched answers q = false := by
  unfold submit_exam_attempt at h
  split at h
  · exact absurd h (by simp)
  · next examId heq =>
      simp only [Except.ok.injEq, Prod.mk.injEq] at h
      obtain ⟨-, hr⟩ := h
      subst hr
      refine ⟨List.length_filter_le _ _, computeScore_le_100 (List.length_filter_le _ _),
        fun q hq => questionMatched_false_of_none answers q hq⟩

/-- Witness for C10 at the same concrete submit call as C2. -/
theorem c10_score_bounds_witness :
    (SubmitResult.mk 50 1 2).correct_count ≤ (SubmitResult.mk 50 1 2).total_count ∧
    (SubmitResult.mk 50 1 2).score ≤ 100 ∧
    ∀ q : Question, (q.correct_answer = none ∨ ansEx.lookup q.id = none) →
      questionMatched ansEx q = false :=
  c10_score_bounds dbEx "at1" "s1" ansEx 7 dbEx' ⟨50, 1, 2⟩ rfl

/-- The `student_exam_questions` view itself does redact: every row it can
deliver contains no `correct_answer`, `solution` or `explanation` field,
and equals (as a record, up to column order) the full questions-table row
of one of the database's questions with exactly those three fields
removed. The leak shown by the claim C3 theorem below is in the other,
never-closed read path, the `questions` table itself. -/
theorem studentView_redacted_projection (db : DB) (uid : Option String)
    (row : List (String × FieldValue))
    (h : row ∈ student_exam_questions db uid) :
    row.lookup "correct_answer" = none ∧
    row.lookup "solution" = none ∧
    row.lookup "explanation" = none ∧
    ∃ q ∈ db.questions,
      List.Perm row (removeFields redactedNames (questionRow q)) := by
  unfold student_exam_questions at h
  obtain ⟨q, hqf, hrow⟩ := List.mem_map.mp h
  have hq : q ∈ db.questions := (List.mem_filter.mp hqf).1
  subst hrow
  refine ⟨rfl, rfl, rfl, q, hq, ?_⟩
  show List.Perm (studentQuestionRow q) (removeFields redactedNames (questionRow q))
  have hr : removeFields redactedNames (questionRow q) =
      [("id", FieldValue.str q.id), ("exam_id", FieldValue.str q.exam_id),
       ("question_text", FieldValue.str q.question_text),
       ("question_type", FieldValue.str q.question_type),
       ("options", FieldValue.strList q.options),
       ("image_url", FieldValue.optStr q.image_url),
       ("order_index", FieldValue.int q.order_index),
       ("created_at", FieldValue.nat q.created_at)] := rfl
  rw [hr]
  exact .cons _ (.cons _ (.cons _ (.cons _ (.cons _ (.swap _ _ _)))))

/-- Claim C3 fails on the code; the claim states the spec's central
security invariant, and the code violates it. The candidate "student" — a
non-owner with an unsubmitted attempt (attEx.submitted_at is null) on the
published exam examEx — issues the plain questions-table SELECT. The
never-dropped policy "Users can view questions of their exams" permits it
(it checks only ownership or is_published, never the caller's attempt),
and the payload delivered is the full rows: correct_answer for both
questions, and the non-null solution and explanation of q2Ex, all before
submission. -/
theorem c3_answer_key_leak_bug :
    attEx.submitted_at = none ∧
    examEx.is_published = some true ∧
    examEx.created_by = some "u1" ∧
    (questionsTableSelect dbEx (some "student") "e1").map
        (fun row => row.lookup "correct_answer")
      = [some (FieldValue.optStr (some "A")), some (FieldValue.optStr (some "B"))] ∧
    (questionsTableSelect dbEx (some "student") "e1").map
        (fun row => (row.lookup "solution", row.lookup "explanation"))
      = [(some (FieldValue.optStr none), some (FieldValue.optStr none)),
         (some (FieldValue.optStr (some "sol")), some (FieldValue.optStr (some "exp")))] :=
  ⟨rfl, rfl, rfl, rfl, rfl⟩

theorem submitExam_issued (s : TakeExamState) (h : (submitExam s).2 = true) :
    (submitExam s).1.submitting = true := by
  unfold submitExam at h ⊢
  by_cases hc : (s.attemptId.isNone || s.submitting) = true
  · rw [if_pos hc] at h
    exact absurd h (by simp)
  · rw [if_neg hc] at h ⊢

theorem stepEvent_submitting (e : TakeEvent) (s : TakeExamState)
    (h : s.submitting = true) :
    (stepEvent e s).2 = false ∧ (stepEvent e s).1.submitting = true := by
  cases e
  · simp only [stepEvent]
    unfold handleFinalSubmit
    by_cases hc : 0 < unansweredCount s
    · rw [if_pos hc]
      exact ⟨rfl, h⟩
    · rw [if_neg hc]
      simp [submitExam, h]
  · simp only [stepEvent]
    simp [handleTimeUp, submitExam, h]
  · simp only [stepEvent]
    simp [confirmSubmitAnyway, submitExam, h]

theorem stepEvent_issued_submitting (e : TakeEvent) (s : TakeExamState)
    (h : (stepEvent e s).2 = true) :
    (stepEvent e s).1.submitting = true := by
  cases e
  · simp only [stepEvent] at h ⊢
    unfold handleFinalSubmit at h ⊢
    by_cases hc : 0 < unansweredCount s
    · rw [if_pos hc] at h
      exact absurd h (by simp)
    · rw [if_neg hc] at h ⊢
      exact submitExam_issued s h
  · exact submitExam_issued s h
  · exact submitExam_issued s h

theorem stepEvent_attempt_none (e : TakeEvent) (s : TakeExamState)
    (h : s.attemptId = none) :
    (stepEvent e s).2 = false ∧ (stepEvent e s).1.attemptId = none := by
  cases e
  · simp only [stepEvent]
    unfold handleFinalSubmit
    by_cases hc : 0 < unansweredCount s
    · rw [if_pos hc]
      exact ⟨rfl, h⟩
    · rw [if_neg hc]
      simp [submitExam, h]
  · simp only [stepEvent]
    simp [handleTimeUp, submitExam, h]
  · simp only [stepEvent]
    simp [confirmSubmitAnyway, submitExam, h]

theorem rpcCount_of_submitting (es : List TakeEvent) :
    ∀ s : TakeExamState, s.submitting = true → rpcCount s es = 0 := by
  induction es with
  | nil => intro s _; rfl
  | cons e es ih =>
      intro s h
      obtain ⟨h1, h2⟩ := stepEvent_submitting e s h
      simp [rpcCount, h1, ih _ h2]

theorem rpcCount_of_attempt_none (es : List TakeEvent) :
    ∀ s : TakeExamState, s.attemptId = none → rpcCount s es = 0 := by
  induction es with
  | nil => intro s _; rfl
  | cons e es ih =>
      intro s h
      obtain ⟨h1, h2⟩ := stepEvent_attempt_none e s h
      simp [rpcCount, h1, ih _ h2]

theorem rpcCount_le_one (es : List TakeEvent) :
    ∀ s : TakeExamState, rpcCount s es ≤ 1 := by
  induction es with
  | nil => intro s; exact Nat.zero_le 1
  | cons e es ih =>
      intro s
      by_cases hb : (stepEvent e s).2 = true
      · have h2 := stepEvent_issued_submitting e s hb
        simp [rpcCount, hb, rpcCount_of_submitting es _ h2]
      · have hb' : (stepEvent e s).2 = false := by
          cases hx : (stepEvent e s).2
          · rfl
          · exact absurd hx hb
        simpa [rpcCount, hb'] using ih (stepEvent e s).1

/-- Claim C6: when unanswered_count > 0 and the trigger is the explicit
candidate action, the submit RPC does not fire — the confirmation dialog is
opened instead, and only the dialog acknowledgement or the timer can issue
the RPC from that state; the timer-triggered path calls `submitExam`
directly, bypassing the confirmation gate, and issues the RPC immediately
whenever an attempt exists and no submit is in flight, regardless of
unanswered_count. -/
theorem c6_confirmation_gate (s : TakeExamState) (h : 0 < unansweredCount s) :
    handleFinalSubmit s = ({ s with showSubmitDialog := true }, false) ∧
    (∀ e : TakeEvent, (stepEvent e s).2 = true →
      e = TakeEvent.timeUp ∨ e = TakeEvent.confirmDialog) ∧
    handleTimeUp s = submitExam s ∧
    (s.attemptId.isSome = true → s.submitting = false →
      (handleTimeUp s).2 = true) := by
  have h1 : handleFinalSubmit s = ({ s with showSubmitDialog := true }, false) := by
    unfold handleFinalSubmit
    rw [if_pos h]
  refine ⟨h1, ?_, rfl, ?_⟩
  · intro e he
    cases e
    · simp [stepEvent, h1] at he
    · exact Or.inl rfl
    · exact Or.inr rfl
  · intro ha hsub
    have hnone : s.attemptId.isNone = false := by
      cases ha' : s.attemptId
      · rw [ha'] at ha
        exact absurd ha (by simp)
      · rfl
    simp [handleTimeUp, submitExam, hnone, hsub]

/-- Witness for C6: in the review state `stateEx` (five questions, three
answered), unanswered_count is 2, the explicit submit only opens the
confirmation dialog, and the timer-triggered path issues the RPC at once. -/
theorem c6_confirmation_gate_witness :
    unansweredCount stateEx = 2 ∧
    handleFinalSubmit stateEx = ({ stateEx with showSubmitDialog := true }, false) ∧
    (handleTimeUp stateEx).2 = true :=
  ⟨by decide, (c6_confirmation_gate stateEx (by decide)).1,
   (c6_confirmation_gate stateEx (by decide)).2.2.2 rfl rfl⟩

/-- Claim C7: at most one submit RPC is in flight per attempt: while the
`submitting` flag is true, or while no attempt id exists yet, any further
submit trigger is a no-op that issues no RPC, and over any sequence of
triggers (no completion in between) at most one submit RPC is issued in
total. -/
theorem c7_single_inflight_submit (s : TakeExamState) (es : List TakeEvent) :
    (s.submitting = true → submitExam s = (s, false) ∧ rpcCount s es = 0) ∧
    (s.attemptId = none → submitExam s = (s, false) ∧ rpcCount s es = 0) ∧
    rpcCount s es ≤ 1 := by
  refine ⟨?_, ?_, rpcCount_le_one es s⟩
  · intro h
    refine ⟨?_, rpcCount_of_submitting es s h⟩
    unfold submitExam
    rw [h]
    simp
  · intro h
    refine ⟨?_, rpcCount_of_attempt_none es s h⟩
    unfold submitExam
    rw [h]
    simp

/-- Witness for C7: with a submit in flight (or no attempt id), every
trigger of `evtsEx` is a no-op issuing no RPC, and from the idle review
state the whole trigger sequence issues at most one RPC. -/
theorem c7_single_inflight_submit_witness :
    (submitExam stateSub = (stateSub, false) ∧ rpcCount stateSub evtsEx = 0) ∧
    (submitExam stateNoAtt = (stateNoAtt, false) ∧ rpcCount stateNoAtt evtsEx = 0) ∧
    rpcCount stateEx evtsEx ≤ 1 :=
  ⟨(c7_single_inflight_submit stateSub evtsEx).1 rfl,
   (c7_single_inflight_submit stateNoAtt evtsEx).2.1 rfl,
   (c7_single_inflight_submit stateEx evtsEx).2.2⟩

end ExamArchitect
